import Mathlib

/-
  Verification of the swapchain / frame-loop engine of the vulkantest
  repository (single translation unit, class VulkanApp).

  The definitions below are a shallow embedding of the relevant source
  functions.  Driver results (VkResult values returned by vkCreate* calls,
  the image index written by vkAcquireNextImageKHR, the actual image count
  reported for a created swapchain, the queried surface capabilities and
  framebuffer size) are inputs supplied by an oracle structure, since they
  come from outside the program.  Every create / destroy / wait call the
  program issues is recorded as an event, so that lifecycle claims can be
  read off the event trace.
-/

/-- UINT_MAX as used by updateExtent to detect the case where the surface
does not fix a current extent. -/
def UINT_MAX : Nat := 4294967295

/-- Numeric value of the VK_FORMAT_UNDEFINED enumerator. -/
def VK_FORMAT_UNDEFINED : Nat := 0

/-- Numeric value of the VK_FORMAT_B8G8R8A8_UNORM enumerator. -/
def VK_FORMAT_B8G8R8A8_UNORM : Nat := 44

/-- Numeric value of the VK_COLOR_SPACE_SRGB_NONLINEAR_KHR enumerator. -/
def VK_COLOR_SPACE_SRGB_NONLINEAR_KHR : Nat := 0

/-- Numeric value of the VK_SUCCESS result code. -/
def VK_SUCCESS : Int := 0

/-- Numeric value of the VK_ERROR_OUT_OF_DATE_KHR result code. -/
def VK_ERROR_OUT_OF_DATE_KHR : Int := -1000001004

/-- Width/height pair, from the VkExtent2D struct. -/
structure VkExtent2D where
  width : Nat
  height : Nat
deriving DecidableEq, Repr

/-- The fields of VkSurfaceCapabilitiesKHR that the program reads. -/
structure VkSurfaceCapabilitiesKHR where
  currentExtent : VkExtent2D
  minImageExtent : VkExtent2D
  maxImageExtent : VkExtent2D
deriving DecidableEq, Repr

/-- Format / color-space pair, from the VkSurfaceFormatKHR struct. -/
structure VkSurfaceFormatKHR where
  format : Nat
  colorSpace : Nat
deriving DecidableEq, Repr

/-- The fixed fallback pair returned by format selection. -/
def bgraSrgbPair : VkSurfaceFormatKHR :=
  { format := VK_FORMAT_B8G8R8A8_UNORM,
    colorSpace := VK_COLOR_SPACE_SRGB_NONLINEAR_KHR }

/-- The predicate of the loop in VulkanApp::chooseSwapSurfaceFormat
(part_000 lines 211-214): an exact B8G8R8A8_UNORM / SRGB_NONLINEAR match. -/
def isTargetFormat (f : VkSurfaceFormatKHR) : Bool :=
  f.format == VK_FORMAT_B8G8R8A8_UNORM
    && f.colorSpace == VK_COLOR_SPACE_SRGB_NONLINEAR_KHR

/-- VulkanApp::chooseSwapSurfaceFormat (part_000 lines 203-217), identical to
the free function in vulkantest.cpp lines 18-31.  The C function indexes
formats[0] and is only called with a non-empty array; the empty list maps to
none. -/
def chooseSwapSurfaceFormat (formats : List VkSurfaceFormatKHR) :
    Option VkSurfaceFormatKHR :=
  match formats with
  | [] => none
  | f0 :: rest =>
    if rest.isEmpty && f0.format == VK_FORMAT_UNDEFINED then
      some bgraSrgbPair
    else
      match (f0 :: rest).find? isTargetFormat with
      | some f => some f
      | none => some f0

/-- VulkanApp::updateExtent (part_000 lines 289-311).  The inputs are the
freshly queried surface capabilities and the framebuffer size reported by
glfwGetFramebufferSize.  The source first computes the extent from
currentExtent, or clamped to min/maxImageExtent, and then lines 309-310
overwrite both fields with the raw framebuffer size. -/
def updateExtent (caps : VkSurfaceCapabilitiesKHR) (width height : Nat) :
    VkExtent2D :=
  let extent :=
    if caps.currentExtent.width ≠ UINT_MAX then
      caps.currentExtent
    else
      { width := max caps.minImageExtent.width
                   (min caps.maxImageExtent.width width),
        height := max caps.minImageExtent.height
                    (min caps.maxImageExtent.height height) }
  let extent := { extent with width := width }
  let extent := { extent with height := height }
  extent

/-- The final overwrite in updateExtent (part_000 lines 309-310) makes the
result the raw framebuffer size, whatever the capabilities say. -/
theorem updateExtent_eq_raw (caps : VkSurfaceCapabilitiesKHR)
    (width height : Nat) : updateExtent caps width height = ⟨width, height⟩ :=
  rfl

/-- One slot of the vector<SwapChainEntry> swapChain member (part_000 lines
40-54).  The presentable image is owned by the swapchain; every other handle
is an Option that is none until the corresponding create call succeeded, so
a partially initialized slot is visible in the model. -/
structure SwapChainEntry where
  image : Nat
  view : Option Nat := none
  msaaImage : Option Nat := none
  msaaMemory : Option Nat := none
  msaaView : Option Nat := none
  imageAvailableSem : Option Nat := none
  renderFinishedSem : Option Nat := none
  fence : Option Nat := none
deriving DecidableEq, Repr

/-- The kinds of driver handles the program creates and destroys. -/
inductive HKind where
  | swapchainObj
  | imageView
  | msaaImage
  | msaaMemory
  | msaaView
  | semaphore
  | fence
  | shaderModule
  | renderPass
  | pipelineLayout
  | pipeline
  | framebuffer
  | commandPool
  | commandBuffer
deriving DecidableEq, Repr

/-- One observable driver interaction: a create call that succeeded, a
destroy/free call, a blocking wait, or a printed diagnostic. -/
inductive Ev where
  | create (k : HKind)
  | destroy (k : HKind)
  | waitIdle
  | log (msg : String)
deriving DecidableEq, Repr

/-- The members of VulkanApp that the modelled functions touch: the event
trace (driver calls in program order), the swapChain vector, the size of the
commandBuffers vector, and devInfo.extent. -/
structure AppState where
  events : List Ev := []
  swapChain : List SwapChainEntry := []
  nCommandBuffers : Nat := 0
  extent : VkExtent2D := ⟨800, 600⟩
deriving DecidableEq, Repr

/-- Driver responses for one swapchain generation build: the result of each
create call (true = VK_SUCCESS), the actual image count the driver reports
for the created swapchain, and the capability / framebuffer-size answers
consumed by updateExtent. -/
structure BuildOracle where
  swapchainOk : Bool
  actualSize : Nat
  viewOk : Nat → Bool
  sem1Ok : Nat → Bool
  sem2Ok : Nat → Bool
  fenceOk : Nat → Bool
  imageOk : Nat → Bool
  allocOk : Nat → Bool
  msaaViewOk : Nat → Bool
  vertexReadOk : Bool
  vertexShaderOk : Bool
  fragReadOk : Bool
  fragShaderOk : Bool
  renderPassOk : Bool
  layoutOk : Bool
  pipelineOk : Bool
  framebufferOk : Nat → Bool
  poolOk : Bool
  cmdAllocOk : Bool
  endCmdOk : Nat → Bool
  caps : VkSurfaceCapabilitiesKHR
  fbWidth : Nat
  fbHeight : Nat

/-- Append events to the trace. -/
def addEvents (s : AppState) (evs : List Ev) : AppState :=
  { s with events := s.events ++ evs }

/-- The body of the per-slot loop of VulkanApp::createSwapChain (part_000
lines 525-650) for slot i: presentable-image view, the two semaphores, the
fence, the multisample image, its memory, and the multisample view, in
source order.  On the first failing step it stops, returning the diagnostic
the source prints, the slot as initialized so far, and the events issued. -/
def buildSlot (o : BuildOracle) (i : Nat) :
    Option String × SwapChainEntry × List Ev :=
  let e : SwapChainEntry := { image := i }
  if !(o.viewOk i) then
    (some "vkCreateImageView failed", e, [.log "vkCreateImageView failed"])
  else
  let e := { e with view := some 0 }
  let evs : List Ev := [.create .imageView]
  if !(o.sem1Ok i) then
    (some "vkCreateSemaphore failed", e, evs ++ [.log "vkCreateSemaphore failed"])
  else
  let e := { e with imageAvailableSem := some 0 }
  let evs := evs ++ [.create .semaphore]
  if !(o.sem2Ok i) then
    (some "vkCreateSemaphore failed", e, evs ++ [.log "vkCreateSemaphore failed"])
  else
  let e := { e with renderFinishedSem := some 0 }
  let evs := evs ++ [.create .semaphore]
  if !(o.fenceOk i) then
    (some "vkCreateFence failed", e, evs ++ [.log "vkCreateFence failed"])
  else
  let e := { e with fence := some 0 }
  let evs := evs ++ [.create .fence]
  if !(o.imageOk i) then
    (some "vkCreateImage failed", e, evs ++ [.log "vkCreateImage failed"])
  else
  let e := { e with msaaImage := some 0 }
  let evs := evs ++ [.create .msaaImage]
  if !(o.allocOk i) then
    (some "vkAllocateMemory failed", e, evs ++ [.log "vkAllocateMemory failed"])
  else
  let e := { e with msaaMemory := some 0 }
  let evs := evs ++ [.create .msaaMemory]
  if !(o.msaaViewOk i) then
    (some "vkCreateImageView failed", e, evs ++ [.log "vkCreateImageView failed"])
  else
  (none, { e with msaaView := some 0 }, evs ++ [.create .msaaView])

/-- The per-slot loop of createSwapChain over the given slot indices.  The
source iterates over the already-resized vector, so when a slot fails the
remaining entries stay in the vector holding only their image (part_000
lines 515-525): the failing branch keeps them as bare entries. -/
def buildSlots (o : BuildOracle) :
    List Nat → Bool × List SwapChainEntry × List Ev
  | [] => (true, [], [])
  | i :: rest =>
    match buildSlot o i with
    | (none, e, evs) =>
      let r := buildSlots o rest
      (r.1, e :: r.2.1, evs ++ r.2.2)
    | (some _, e, evs) =>
      (false, e :: rest.map (fun j => { image := j }), evs)

/-- VulkanApp::createSwapChain (part_000 lines 480-652): create the
swapchain object, query the actual image count, resize the member vector to
it, then run the per-slot loop.  The vector is written in place, so it is
part of the state even when the build fails. -/
def createSwapChain (o : BuildOracle) (s : AppState) : Bool × AppState :=
  if !o.swapchainOk then
    (false, addEvents s [.log "vkCreateSwapchainKHR failed"])
  else
    let s := addEvents s [.create .swapchainObj]
    let r := buildSlots o (List.range o.actualSize)
    (r.1, addEvents { s with swapChain := r.2.1 } r.2.2)

/-- VulkanApp::loadShaders (part_000 lines 654-686). -/
def loadShaders (o : BuildOracle) (s : AppState) : Bool × AppState :=
  if !o.vertexReadOk then
    (false, addEvents s [.log "Could not read vertex.spv"])
  else if !o.vertexShaderOk then
    (false, addEvents s [.log "vkCreateShaderModule failed"])
  else
    let s := addEvents s [.create .shaderModule]
    if !o.fragReadOk then
      (false, addEvents s [.log "Could not read fragment.spv"])
    else if !o.fragShaderOk then
      (false, addEvents s [.log "vkCreateShaderModule failed"])
    else (true, addEvents s [.create .shaderModule])

/-- VulkanApp::createRenderPass (part_000 lines 688-756). -/
def createRenderPass (o : BuildOracle) (s : AppState) : Bool × AppState :=
  if !o.renderPassOk then
    (false, addEvents s [.log "vkCreateRenderPass failed"])
  else (true, addEvents s [.create .renderPass])

/-- VulkanApp::createPipeline (part_000 lines 759-916): the pipeline layout
is created first, then the graphics pipeline. -/
def createPipeline (o : BuildOracle) (s : AppState) : Bool × AppState :=
  if !o.layoutOk then
    (false, addEvents s [.log "vkCreatePipelineLayout failed"])
  else
    let s := addEvents s [.create .pipelineLayout]
    if !o.pipelineOk then
      (false, addEvents s [.log "vkCreateGraphicsPipelines failed"])
    else (true, addEvents s [.create .pipeline])

/-- The loop of VulkanApp::createFrameBuffers over slot indices. -/
def fbLoop (okf : Nat → Bool) : List Nat → Bool × List Ev
  | [] => (true, [])
  | i :: rest =>
    if okf i then
      let r := fbLoop okf rest
      (r.1, Ev.create .framebuffer :: r.2)
    else (false, [.log "vkCreateFramebuffer failed"])

/-- VulkanApp::createFrameBuffers (part_000 lines 918-941): one framebuffer
per swapChain slot. -/
def createFrameBuffers (o : BuildOracle) (s : AppState) : Bool × AppState :=
  let r := fbLoop o.framebufferOk (List.range s.swapChain.length)
  (r.1, addEvents s r.2)

/-- VulkanApp::createCommandBuffers (part_000 lines 943-971): creates a new
command pool on every call, then resizes commandBuffers to swapChain.size()
and allocates them from the new pool.  The source prints the
vkCreateCommandPool message for the allocation failure as well (line 967). -/
def createCommandBuffers (o : BuildOracle) (s : AppState) : Bool × AppState :=
  if !o.poolOk then
    (false, addEvents s [.log "vkCreateCommandPool failed"])
  else
    let s := addEvents s [.create .commandPool]
    let s := { s with nCommandBuffers := s.swapChain.length }
    if !o.cmdAllocOk then
      (false, addEvents s [.log "vkCreateCommandPool failed"])
    else
      (true, addEvents s
        (List.replicate s.swapChain.length (Ev.create .commandBuffer)))

/-- The loop of VulkanApp::setupCommandBuffers: only vkEndCommandBuffer has
its result checked. -/
def setupLoop (okf : Nat → Bool) : List Nat → Bool × List Ev
  | [] => (true, [])
  | i :: rest =>
    if okf i then setupLoop okf rest
    else (false, [.log "vkEndCommandBuffer failed"])

/-- VulkanApp::setupCommandBuffers (part_000 lines 973-1014): records one
command buffer per slot; command buffer i draws into framebuffer i. -/
def setupCommandBuffers (o : BuildOracle) (s : AppState) : Bool × AppState :=
  let r := setupLoop o.endCmdOk (List.range s.nCommandBuffers)
  (r.1, addEvents s r.2)

/-- The createSwapChain .. setupCommandBuffers suffix of VulkanApp::init
(part_000 lines 130-136), equally the rebuild chain of
VulkanApp::recreateSwapChain (lines 1083-1089): short-circuits on the first
failing stage, exactly like the chain of negated calls in the source. -/
def buildAll (o : BuildOracle) (s : AppState) : Bool × AppState :=
  let r := createSwapChain o s
  if !r.1 then r else
  let r := loadShaders o r.2
  if !r.1 then r else
  let r := createRenderPass o r.2
  if !r.1 then r else
  let r := createPipeline o r.2
  if !r.1 then r else
  let r := createFrameBuffers o r.2
  if !r.1 then r else
  let r := createCommandBuffers o r.2
  if !r.1 then r else
  setupCommandBuffers o r.2

/-- VulkanApp::waitForIdle (part_000 lines 164-169): waits every slot fence
and then the whole device. -/
def waitForIdle (s : AppState) : AppState :=
  addEvents s [.waitIdle]

/-- The per-slot destroy sequence of VulkanApp::cleanupSwapChain (part_000
lines 1107-1117), in source order. -/
def slotDestroyEvs : List Ev :=
  [.destroy .fence, .destroy .semaphore, .destroy .semaphore,
   .destroy .imageView, .destroy .msaaView, .destroy .msaaMemory,
   .destroy .msaaImage]

/-- n copies of an event block, in order. -/
def replicateList (n : Nat) (l : List Ev) : List Ev :=
  match n with
  | 0 => []
  | n + 1 => l ++ replicateList n l

/-- VulkanApp::cleanupSwapChain (part_000 lines 1094-1119): frees the
command buffers, destroys one framebuffer per swapChain slot, the pipeline,
its layout, the render pass, both shader modules, each slot's
synchronization objects, views, offscreen memory and image, and finally the
swapchain object.  It does not destroy the command pool, and it does not
shrink the member vectors. -/
def cleanupSwapChain (s : AppState) : AppState :=
  let evs :=
    List.replicate s.nCommandBuffers (Ev.destroy .commandBuffer)
    ++ List.replicate s.swapChain.length (Ev.destroy .framebuffer)
    ++ [.destroy .pipeline, .destroy .pipelineLayout, .destroy .renderPass,
        .destroy .shaderModule, .destroy .shaderModule]
    ++ replicateList s.swapChain.length slotDestroyEvs
    ++ [.destroy .swapchainObj]
  addEvents s evs

/-- VulkanApp::cleanup (part_000 lines 1121-1131) restricted to the handles
the claims track: cleanupSwapChain followed by the single command pool
destruction.  Instance, device, surface and window teardown are outside the
modelled handle set. -/
def cleanup (s : AppState) : AppState :=
  addEvents (cleanupSwapChain s) [.destroy .commandPool]

/-- VulkanApp::recreateSwapChain (part_000 lines 1076-1092): wait for idle,
refresh the extent via updateExtent, tear the generation down, rebuild. -/
def recreateSwapChain (o : BuildOracle) (s : AppState) : Bool × AppState :=
  let s := waitForIdle s
  let s := { s with extent := updateExtent o.caps o.fbWidth o.fbHeight }
  let s := cleanupSwapChain s
  buildAll o s

/-- VulkanApp::onResize (part_000 lines 1133-1138): zero-area notifications
return immediately; otherwise recreateSwapChain runs and its Bool result is
discarded, since the handler returns void. -/
def onResize (o : BuildOracle) (s : AppState) (width height : Int) :
    AppState :=
  if width = 0 ∨ height = 0 then s
  else (recreateSwapChain o s).2

/-- Driver responses for one renderFrame call: the three VkResult codes and
the image index vkAcquireNextImageKHR writes.  acquireWrites = none models
an error return that leaves the local imageIndex variable unwritten, in
which case the program keeps the stale stack value staleIndex (the variable
is declared uninitialized at part_000 line 1025). -/
structure FrameOracle where
  acquireRes : Int
  acquireWrites : Option Nat
  staleIndex : Nat
  submitRes : Int
  presentRes : Int

/-- What one VulkanApp::renderFrame call did: which slot each
synchronization object was taken from, which index the command-buffer
lookup used, the two bounds checks, what was logged, whether presentation
ran, and the returned Bool. -/
structure FrameTrace where
  waitFenceSlot : Nat
  resetFenceSlot : Nat
  acquireSemSlot : Nat
  submitWaitSemSlot : Nat
  submitSignalSemSlot : Nat
  submitFenceSlot : Nat
  imageIndex : Nat
  syncIndexInBounds : Bool
  cmdIndexInBounds : Bool
  acquireLogged : Bool
  presentedIndex : Option Nat
  presentLogged : Option Bool
  success : Bool
deriving DecidableEq, Repr

/-- VulkanApp::renderFrame (part_000 lines 1016-1074).  idx is
renderCount % swapChain.size(); the fence wait/reset, the acquire signal,
the submit wait/signal semaphores and the fence armed at submit all use
slot idx, while the submitted command buffer is commandBuffers[imageIndex].
A non-success acquire result is printed and execution continues; a
non-success submit result returns false before presentation; a non-success
present result is printed and the call still returns true. -/
def renderFrame (size cmdCount : Nat) (o : FrameOracle) (renderCount : Nat) :
    FrameTrace :=
  let idx := renderCount % size
  let imageIndex :=
    match o.acquireWrites with
    | some j => j
    | none => o.staleIndex
  { waitFenceSlot := idx
    resetFenceSlot := idx
    acquireSemSlot := idx
    submitWaitSemSlot := idx
    submitSignalSemSlot := idx
    submitFenceSlot := idx
    imageIndex := imageIndex
    syncIndexInBounds := decide (idx < size)
    cmdIndexInBounds := decide (imageIndex < cmdCount)
    acquireLogged := decide (o.acquireRes ≠ VK_SUCCESS)
    presentedIndex :=
      if o.submitRes = VK_SUCCESS then some imageIndex else none
    presentLogged :=
      if o.submitRes = VK_SUCCESS then
        some (decide (o.presentRes ≠ VK_SUCCESS))
      else none
    success := decide (o.submitRes = VK_SUCCESS) }

/-- The external inputs of one iteration of the loop in VulkanApp::run
(part_000 lines 147-158): the frame oracle, an optional resize notification
delivered by glfwPollEvents (dimensions plus the build oracle for the
rebuild it triggers), and the two exit conditions. -/
structure IterInput where
  frame : FrameOracle
  resize : Option (Int × Int × BuildOracle)
  esc : Bool
  close : Bool

/-- One iteration of the while loop of VulkanApp::run: renderFrame with the
current renderCount, then event polling (which may call onResize), then the
exit checks; renderCount advances by one either way. -/
def loopIter (s : AppState) (renderCount : Nat) (inp : IterInput) :
    Bool × AppState × Nat :=
  let t := renderFrame s.swapChain.length s.nCommandBuffers inp.frame
    renderCount
  let running := t.success
  let s :=
    match inp.resize with
    | some (w, h, o) => onResize o s w h
    | none => s
  let running := if inp.esc then false else running
  let running := if inp.close then false else running
  (running, s, renderCount + 1)

/-- Iterated loop: fold loopIter over a list of per-iteration inputs,
threading the state and the renderCount. -/
def runFrom (s : AppState) (renderCount : Nat) :
    List IterInput → AppState × Nat
  | [] => (s, renderCount)
  | inp :: rest =>
    let r := loopIter s renderCount inp
    runFrom r.2.1 r.2.2 rest

/-- The ring index the next renderFrame call will use (part_000 line
1019). -/
def nextRingIndex (s : AppState) (renderCount : Nat) : Nat :=
  renderCount % s.swapChain.length

/-- How many successful create calls for handle kind k the trace holds. -/
def countCreate (k : HKind) (evs : List Ev) : Nat :=
  evs.countP (fun e => decide (e = Ev.create k))

/-- How many destroy/free calls for handle kind k the trace holds. -/
def countDestroy (k : HKind) (evs : List Ev) : Nat :=
  evs.countP (fun e => decide (e = Ev.destroy k))

/-- Every modelled handle kind. -/
def allKinds : List HKind :=
  [.swapchainObj, .imageView, .msaaImage, .msaaMemory, .msaaView,
   .semaphore, .fence, .shaderModule, .renderPass, .pipelineLayout,
   .pipeline, .framebuffer, .commandPool, .commandBuffer]

/-- The handle kinds whose create and destroy counts differ in a trace. -/
def leakedKinds (evs : List Ev) : List HKind :=
  allKinds.filter (fun k => decide (countCreate k evs ≠ countDestroy k evs))

/-- Default capability snapshot used by the concrete scenarios. -/
def capsDefault : VkSurfaceCapabilitiesKHR :=
  { currentExtent := ⟨800, 600⟩,
    minImageExtent := ⟨1, 1⟩,
    maxImageExtent := ⟨4096, 4096⟩ }

/-- A build oracle on which every driver call succeeds and the created
swapchain reports k images. -/
def allOk (k : Nat) : BuildOracle :=
  { swapchainOk := true
    actualSize := k
    viewOk := fun _ => true
    sem1Ok := fun _ => true
    sem2Ok := fun _ => true
    fenceOk := fun _ => true
    imageOk := fun _ => true
    allocOk := fun _ => true
    msaaViewOk := fun _ => true
    vertexReadOk := true
    vertexShaderOk := true
    fragReadOk := true
    fragShaderOk := true
    renderPassOk := true
    layoutOk := true
    pipelineOk := true
    framebufferOk := fun _ => true
    poolOk := true
    cmdAllocOk := true
    endCmdOk := fun _ => true
    caps := capsDefault
    fbWidth := 800
    fbHeight := 600 }

/-- The state of a fresh VulkanApp before createSwapChain runs. -/
def initialState : AppState := {}

/-- A frame oracle on which acquire, submit and present all succeed and the
driver hands back image index 0. -/
def okFrame : FrameOracle :=
  { acquireRes := VK_SUCCESS
    acquireWrites := some 0
    staleIndex := 0
    submitRes := VK_SUCCESS
    presentRes := VK_SUCCESS }

/-- The capability snapshot of the C1 failing input: the device fixes
currentExtent 150x150 and allows only extents between 100x100 and
200x200. -/
def capsC1 : VkSurfaceCapabilitiesKHR :=
  { currentExtent := ⟨150, 150⟩,
    minImageExtent := ⟨100, 100⟩,
    maxImageExtent := ⟨200, 200⟩ }

/-- C1: the claim says the extent recomputed on resize is clamped to the
device minimum/maximum image extents.  On the failing input (capabilities
capsC1, framebuffer size 50x50) updateExtent returns 50x50: below the
reported minimum and different from the fixed currentExtent, because lines
309-310 of the source overwrite the clamped computation with the raw
framebuffer size. -/
theorem c1_extent_not_clamped :
    updateExtent capsC1 50 50 = ⟨50, 50⟩
    ∧ (updateExtent capsC1 50 50).width < capsC1.minImageExtent.width
    ∧ (updateExtent capsC1 50 50).height < capsC1.minImageExtent.height
    ∧ capsC1.currentExtent.width ≠ UINT_MAX
    ∧ updateExtent capsC1 50 50 ≠ capsC1.currentExtent := by
  decide

/-- State after the startup build, with the driver reporting 2 images. -/
def afterInit : AppState := (buildAll (allOk 2) initialState).2

/-- State after one valid resize rebuild, with the driver now reporting 3
images. -/
def afterResize : AppState := (recreateSwapChain (allOk 3) afterInit).2

/-- State after shutdown teardown following that resize. -/
def afterShutdown : AppState := cleanup afterResize

/-- C2: the claim says every handle of a swapchain generation, including
the command pool created during command-buffer setup, is destroyed exactly
once across resize cycles plus shutdown.  On the failing input (successful
startup build, one successful resize rebuild, shutdown) the startup build
and the rebuild each create a command pool but only one pool destruction
ever happens, so one pool leaks; every other modelled handle kind balances,
and with no resize nothing leaks at all. -/
theorem c2_command_pool_leak :
    (buildAll (allOk 2) initialState).1 = true
    ∧ (recreateSwapChain (allOk 3) afterInit).1 = true
    ∧ countCreate .commandPool afterShutdown.events = 2
    ∧ countDestroy .commandPool afterShutdown.events = 1
    ∧ leakedKinds afterShutdown.events = [.commandPool]
    ∧ leakedKinds (cleanup afterInit).events = [] := by
  decide

/-- The C10 failing input: a 1-image swapchain, vkAcquireNextImageKHR
returns VK_ERROR_OUT_OF_DATE_KHR without writing the image index, and the
stale stack value of the uninitialized imageIndex variable is 5. -/
def oracleC10 : FrameOracle :=
  { acquireRes := VK_ERROR_OUT_OF_DATE_KHR
    acquireWrites := none
    staleIndex := 5
    submitRes := VK_SUCCESS
    presentRes := VK_SUCCESS }

/-- C10: the claim says every container access in renderFrame is in bounds
on every path, including the path where acquisition fails.  On the failing
input the cursor access is in bounds and the failure is logged, but the
command-buffer lookup uses the unwritten index 5 against a 1-element
vector: out of bounds. -/
theorem c10_oob_on_failed_acquire :
    (renderFrame 1 1 oracleC10 0).syncIndexInBounds = true
    ∧ (renderFrame 1 1 oracleC10 0).acquireLogged = true
    ∧ (renderFrame 1 1 oracleC10 0).imageIndex = 5
    ∧ (renderFrame 1 1 oracleC10 0).cmdIndexInBounds = false := by
  decide

/-- C9: a resize notification with width 0 or height 0 returns immediately:
the state (event trace, slot vector, extent) is exactly unchanged, so no
destroy or create call and no wait-for-idle happened. -/
theorem c9_zero_area_resize_noop (o : BuildOracle) (s : AppState)
    (width height : Int) (hz : width = 0 ∨ height = 0) :
    onResize o s width height = s := by
  unfold onResize
  rw [if_pos hz]

/-- Witness for c9_zero_area_resize_noop at width 0, height 7, on the
after-startup state. -/
theorem c9_zero_area_resize_noop_witness :
    onResize (allOk 3) afterInit 0 7 = afterInit :=
  c9_zero_area_resize_noop (allOk 3) afterInit 0 7 (Or.inl rfl)

/-- C5: in every frame with a non-empty slot vector, when acquisition
returns index j the submitted command buffer is looked up at j, while the
fence waited and reset, the acquire semaphore, the submit wait and signal
semaphores and the fence armed at submission all come from the slot at the
frame cursor renderCount mod size, which is a valid slot; j is in no way
constrained to equal the cursor. -/
theorem c5_cmd_by_acquired_sync_by_cursor (size cmdCount renderCount j : Nat)
    (o : FrameOracle) (hs : 0 < size) (hw : o.acquireWrites = some j) :
    (renderFrame size cmdCount o renderCount).imageIndex = j
    ∧ (renderFrame size cmdCount o renderCount).waitFenceSlot
        = renderCount % size
    ∧ (renderFrame size cmdCount o renderCount).resetFenceSlot
        = renderCount % size
    ∧ (renderFrame size cmdCount o renderCount).acquireSemSlot
        = renderCount % size
    ∧ (renderFrame size cmdCount o renderCount).submitWaitSemSlot
        = renderCount % size
    ∧ (renderFrame size cmdCount o renderCount).submitSignalSemSlot
        = renderCount % size
    ∧ (renderFrame size cmdCount o renderCount).submitFenceSlot
        = renderCount % size
    ∧ renderCount % size < size := by
  refine ⟨?_, rfl, rfl, rfl, rfl, rfl, rfl, Nat.mod_lt _ hs⟩
  simp [renderFrame, hw]

/-- The frame oracle of the C5 witness: the driver hands back image index 1
while the cursor is at slot 0. -/
def oracleC5 : FrameOracle :=
  { acquireRes := VK_SUCCESS
    acquireWrites := some 1
    staleIndex := 0
    submitRes := VK_SUCCESS
    presentRes := VK_SUCCESS }

/-- Witness for c5_cmd_by_acquired_sync_by_cursor: with 2 slots, render
count 0 and acquired index 1, the command buffer is taken at index 1 while
the synchronization slot is 0 — the two indices differ. -/
theorem c5_cmd_by_acquired_sync_by_cursor_witness :
    (renderFrame 2 2 oracleC5 0).imageIndex = 1
    ∧ (renderFrame 2 2 oracleC5 0).waitFenceSlot = 0
    ∧ (renderFrame 2 2 oracleC5 0).imageIndex
        ≠ (renderFrame 2 2 oracleC5 0).waitFenceSlot := by
  have h := c5_cmd_by_acquired_sync_by_cursor 2 2 0 1 oracleC5
    (by decide) rfl
  exact ⟨h.1, h.2.1, by decide⟩

/-- C7: in steady state, a non-success acquisition result is logged yet the
frame call still reports success (the loop keeps running) as long as
submission succeeds; a non-success presentation result is logged and the
call still reports success; a non-success submission result makes the frame
call report failure, stopping the loop, and presentation is not reached. -/
theorem c7_transient_vs_fatal_results (s : AppState) (renderCount : Nat)
    (fo : FrameOracle) :
    (fo.acquireRes ≠ VK_SUCCESS →
      (renderFrame s.swapChain.length s.nCommandBuffers fo
        renderCount).acquireLogged = true)
    ∧ (fo.submitRes = VK_SUCCESS →
        (loopIter s renderCount ⟨fo, none, false, false⟩).1 = true
        ∧ (fo.presentRes ≠ VK_SUCCESS →
            (renderFrame s.swapChain.length s.nCommandBuffers fo
              renderCount).presentLogged = some true))
    ∧ (fo.submitRes ≠ VK_SUCCESS →
        (loopIter s renderCount ⟨fo, none, false, false⟩).1 = false
        ∧ (renderFrame s.swapChain.length s.nCommandBuffers fo
            renderCount).presentLogged = none) := by
  refine ⟨?_, ?_, ?_⟩
  · intro h
    simp [renderFrame, h]
  · intro h
    refine ⟨?_, ?_⟩
    · simp [loopIter, renderFrame, h]
    · intro hp
      simp [renderFrame, h, hp]
  · intro h
    refine ⟨?_, ?_⟩
    · simp [loopIter, renderFrame, h]
    · simp [renderFrame, h]

/-- The frame oracle of the C7 witness: acquire and present both report an
out-of-date surface while submission succeeds. -/
def oracleC7 : FrameOracle :=
  { acquireRes := VK_ERROR_OUT_OF_DATE_KHR
    acquireWrites := some 0
    staleIndex := 0
    submitRes := VK_SUCCESS
    presentRes := VK_ERROR_OUT_OF_DATE_KHR }

/-- Witness for c7_transient_vs_fatal_results on the after-startup state:
both transient failures are logged and the iteration still reports
running. -/
theorem c7_transient_vs_fatal_results_witness :
    (renderFrame afterInit.swapChain.length afterInit.nCommandBuffers
      oracleC7 0).acquireLogged = true
    ∧ (loopIter afterInit 0 ⟨oracleC7, none, false, false⟩).1 = true
    ∧ (renderFrame afterInit.swapChain.length afterInit.nCommandBuffers
        oracleC7 0).presentLogged = some true := by
  have h := c7_transient_vs_fatal_results afterInit 0 oracleC7
  exact ⟨h.1 (by decide), (h.2.1 rfl).1, (h.2.1 rfl).2 (by decide)⟩

/-- Each loop iteration advances renderCount by exactly one, whatever the
frame results, resize notifications or exit flags of that iteration are. -/
theorem loopIter_count (s : AppState) (rc : Nat) (inp : IterInput) :
    (loopIter s rc inp).2.2 = rc + 1 :=
  rfl

/-- The renderCount after a run of iterations is the starting count plus the
number of iterations. -/
theorem runFrom_count (inps : List IterInput) :
    ∀ (s : AppState) (rc : Nat), (runFrom s rc inps).2 = rc + inps.length := by
  induction inps with
  | nil =>
    intro s rc
    simp [runFrom]
  | cons inp rest ih =>
    intro s rc
    show (runFrom (loopIter s rc inp).2.1 (loopIter s rc inp).2.2 rest).2
      = rc + (rest.length + 1)
    rw [ih, loopIter_count]
    omega

/-- C6: starting from a fresh counter, after N loop iterations — containing
any mix of successful frames and resize notifications — the counter equals
N, the ring index the next renderFrame call uses equals N mod K for the
current slot count K, and the counter advances by exactly one per iteration
(so a resize notification inside an iteration never resets it). -/
theorem c6_frame_cursor_invariant (inps : List IterInput) (s : AppState) :
    (runFrom s 0 inps).2 = inps.length
    ∧ (∀ fo : FrameOracle,
        (renderFrame (runFrom s 0 inps).1.swapChain.length
          (runFrom s 0 inps).1.nCommandBuffers fo
          (runFrom s 0 inps).2).waitFenceSlot
        = inps.length % (runFrom s 0 inps).1.swapChain.length)
    ∧ nextRingIndex (runFrom s 0 inps).1 (runFrom s 0 inps).2
        = inps.length % (runFrom s 0 inps).1.swapChain.length
    ∧ (∀ (t : AppState) (n : Nat) (inp : IterInput),
        (loopIter t n inp).2.2 = n + 1) := by
  have h1 : (runFrom s 0 inps).2 = inps.length := by
    have := runFrom_count inps s 0
    simpa using this
  refine ⟨h1, ?_, ?_, fun t n inp => rfl⟩
  · intro fo
    simp [renderFrame, h1]
  · rw [nextRingIndex, h1]

/-- The loop predicate accepts exactly the fixed BGRA/sRGB pair. -/
theorem isTargetFormat_iff (f : VkSurfaceFormatKHR) :
    isTargetFormat f = true ↔ f = bgraSrgbPair := by
  cases f
  simp [isTargetFormat, bgraSrgbPair, VK_FORMAT_B8G8R8A8_UNORM,
    VK_COLOR_SPACE_SRGB_NONLINEAR_KHR]

/-- If the exact pair occurs anywhere in the list, the selection loop finds
it (whatever position it is at, the found element is that pair). -/
theorem find_target_of_mem (fs : List VkSurfaceFormatKHR)
    (h : bgraSrgbPair ∈ fs) :
    fs.find? isTargetFormat = some bgraSrgbPair := by
  induction fs with
  | nil => cases h
  | cons f rest ih =>
    by_cases hf : isTargetFormat f = true
    · rw [List.find?_cons_of_pos _ hf, (isTargetFormat_iff f).1 hf]
    · have hne : f ≠ bgraSrgbPair := fun he => hf ((isTargetFormat_iff f).2 he)
      have hm : bgraSrgbPair ∈ rest := by
        rcases List.mem_cons.1 h with he | hr
        · exact absurd he.symm hne
        · exact hr
      rw [List.find?_cons_of_neg _ (by simpa using hf), ih hm]

/-- If the exact pair occurs nowhere in the list, the selection loop finds
nothing. -/
theorem find_target_of_not_mem (fs : List VkSurfaceFormatKHR)
    (h : bgraSrgbPair ∉ fs) :
    fs.find? isTargetFormat = none := by
  rw [List.find?_eq_none]
  intro x hx hbx
  exact h ((isTargetFormat_iff x).1 hbx ▸ hx)

/-- C8: for every non-empty surface-format list, selection returns the
fixed B8G8R8A8_UNORM / SRGB_NONLINEAR pair when the list is exactly one
undefined-format sentinel; otherwise it returns that exact pair whenever it
occurs anywhere in the list; otherwise it returns the first entry. -/
theorem c8_format_selection_policy (fs : List VkSurfaceFormatKHR)
    (h : fs ≠ []) :
    ((∃ f, fs = [f] ∧ f.format = VK_FORMAT_UNDEFINED) →
      chooseSwapSurfaceFormat fs = some bgraSrgbPair)
    ∧ ((¬ ∃ f, fs = [f] ∧ f.format = VK_FORMAT_UNDEFINED) →
        bgraSrgbPair ∈ fs →
        chooseSwapSurfaceFormat fs = some bgraSrgbPair)
    ∧ ((¬ ∃ f, fs = [f] ∧ f.format = VK_FORMAT_UNDEFINED) →
        bgraSrgbPair ∉ fs →
        chooseSwapSurfaceFormat fs = fs.head?) := by
  cases fs with
  | nil => exact absurd rfl h
  | cons f0 rest =>
    refine ⟨?_, ?_, ?_⟩
    · rintro ⟨f, hfs, hfmt⟩
      injection hfs with h1 h2
      subst h1
      subst h2
      simp [chooseSwapSurfaceFormat, hfmt]
    · intro hne hmem
      cases hb : rest.isEmpty && (f0.format == VK_FORMAT_UNDEFINED) with
      | true =>
        rw [Bool.and_eq_true] at hb
        refine absurd ⟨f0, ?_, by simpa using hb.2⟩ hne
        simp [List.isEmpty_iff.1 hb.1]
      | false =>
        simp [chooseSwapSurfaceFormat, hb, find_target_of_mem _ hmem]
    · intro hne hmem
      cases hb : rest.isEmpty && (f0.format == VK_FORMAT_UNDEFINED) with
      | true =>
        rw [Bool.and_eq_true] at hb
        refine absurd ⟨f0, ?_, by simpa using hb.2⟩ hne
        simp [List.isEmpty_iff.1 hb.1]
      | false =>
        simp [chooseSwapSurfaceFormat, hb, find_target_of_not_mem _ hmem]

/-- Witness for c8_format_selection_policy: one concrete list per branch of
the policy. -/
theorem c8_format_selection_policy_witness :
    chooseSwapSurfaceFormat [⟨0, 7⟩] = some bgraSrgbPair
    ∧ chooseSwapSurfaceFormat [⟨3, 9⟩, ⟨44, 0⟩] = some bgraSrgbPair
    ∧ chooseSwapSurfaceFormat [⟨3, 9⟩, ⟨5, 5⟩] = some ⟨3, 9⟩ := by
  refine ⟨?_, ?_, ?_⟩
  · exact (c8_format_selection_policy [⟨0, 7⟩] (by decide)).1
      ⟨⟨0, 7⟩, rfl, rfl⟩
  · refine (c8_format_selection_policy [⟨3, 9⟩, ⟨44, 0⟩] (by decide)).2.1
      ?_ (by decide)
    rintro ⟨f, hf, _⟩
    simp at hf
  · refine (c8_format_selection_policy [⟨3, 9⟩, ⟨5, 5⟩] (by decide)).2.2
      ?_ (by decide)
    rintro ⟨f, hf, _⟩
    simp at hf

/-- When a slot build step fails, the diagnostic it returns was logged among
the events of that slot. -/
theorem buildSlot_fail (o : BuildOracle) (i : Nat) :
    ∀ m, (buildSlot o i).1 = some m → Ev.log m ∈ (buildSlot o i).2.2 := by
  simp only [buildSlot]
  repeat' split
  all_goals intro m h
  all_goals simp_all

/-- When the slot loop fails, a diagnostic naming the failing step is in the
events it produced. -/
theorem buildSlots_fail (o : BuildOracle) :
    ∀ l : List Nat, (buildSlots o l).1 = false →
      ∃ m, Ev.log m ∈ (buildSlots o l).2.2 := by
  intro l
  induction l with
  | nil =>
    intro h
    simp [buildSlots] at h
  | cons i rest ih =>
    intro h
    rcases hb : buildSlot o i with ⟨res, e, evs⟩
    cases res with
    | none =>
      simp only [buildSlots, hb] at h ⊢
      obtain ⟨m, hm⟩ := ih h
      exact ⟨m, by simp [hm]⟩
    | some m =>
      refine ⟨m, ?_⟩
      have hmem : Ev.log m ∈ (buildSlot o i).2.2 :=
        buildSlot_fail o i m (by rw [hb])
      rw [hb] at hmem
      simp [buildSlots, hb, hmem]

/-- The slot loop always returns as many entries as there are slot indices:
the resized vector keeps its size even when the build fails mid-way. -/
theorem buildSlots_length (o : BuildOracle) :
    ∀ l : List Nat, (buildSlots o l).2.1.length = l.length := by
  intro l
  induction l with
  | nil => rfl
  | cons i rest ih =>
    rcases hb : buildSlot o i with ⟨res, e, evs⟩
    cases res with
    | none => simp [buildSlots, hb, ih]
    | some m => simp [buildSlots, hb]

/-- The C3 failing build: the driver reports 2 images and the first
semaphore creation of slot 0 fails. -/
def oracleC3 : BuildOracle := { allOk 2 with sem1Ok := fun _ => false }

/-- C3 counterexample: the claim says no partially initialized slot from a
failed build attempt is handed to or observable by the caller.  On the
concrete failing build the call returns failure, yet the slot vector of the
returned state holds 2 entries, one of them with its view created but no
fence — a partially initialized slot from that attempt. -/
theorem c3_partial_slot_observable_counterexample :
    (createSwapChain oracleC3 initialState).1 = false
    ∧ (createSwapChain oracleC3 initialState).2.swapChain.any
        (fun e => e.view.isSome && e.fence.isNone) = true
    ∧ (createSwapChain oracleC3 initialState).2.swapChain.length = 2 := by
  decide

/-- C3 amended: if any per-slot creation step fails, the build reports which
step failed (a diagnostic naming it is logged) and returns failure, but the
slot vector of the attempt — sized to the driver-reported image count and
holding the partially initialized slots — remains stored in the state handed
back to the caller: the build is not all-or-nothing. -/
theorem c3_failure_reported_but_slots_kept (o : BuildOracle) (s : AppState)
    (hsw : o.swapchainOk = true)
    (hf : (createSwapChain o s).1 = false) :
    (∃ m, Ev.log m ∈ (createSwapChain o s).2.events)
    ∧ (createSwapChain o s).2.swapChain.length = o.actualSize := by
  simp only [createSwapChain, hsw, Bool.not_true] at hf ⊢
  simp only [Bool.false_eq_true, if_false] at hf ⊢
  obtain ⟨m, hm⟩ := buildSlots_fail o (List.range o.actualSize) hf
  constructor
  · exact ⟨m, by simp [addEvents, hm]⟩
  · simp [addEvents, buildSlots_length, List.length_range]

/-- Witness for c3_failure_reported_but_slots_kept at the concrete failing
build oracleC3. -/
theorem c3_failure_reported_but_slots_kept_witness :
    (∃ m, Ev.log m ∈ (createSwapChain oracleC3 initialState).2.events)
    ∧ (createSwapChain oracleC3 initialState).2.swapChain.length = 2 :=
  c3_failure_reported_but_slots_kept oracleC3 initialState rfl (by decide)

/-- A rebuild oracle whose very first stage (swapchain creation) fails. -/
def failBuild : BuildOracle := { allOk 2 with swapchainOk := false }

/-- C4 counterexample: the claim says the outcome of a resize-triggered
rebuild is propagated rather than discarded.  On the concrete input the
rebuild fails, yet the loop iteration that delivered the resize
notification still reports running = true: the failure reaches onResize and
is dropped there, and nothing above it can observe it. -/
theorem c4_resize_outcome_discarded_counterexample :
    (recreateSwapChain failBuild afterInit).1 = false
    ∧ (loopIter afterInit 0
        { frame := okFrame, resize := some (5, 5, failBuild),
          esc := false, close := false }).1 = true := by
  decide

/-- C4 amended: recreateSwapChain does return its outcome to its caller
onResize, but onResize (a void handler) drops the Bool and keeps only the
state, and the running flag of a loop iteration is computed independently
of the resize notification and its rebuild outcome. -/
theorem c4_outcome_returned_then_dropped (o : BuildOracle) (s : AppState)
    (w h : Int) (rc : Nat) (inp : IterInput)
    (hw : ¬ (w = 0 ∨ h = 0)) :
    onResize o s w h = (recreateSwapChain o s).2
    ∧ (loopIter s rc inp).1
        = (loopIter s rc { inp with resize := none }).1 := by
  refine ⟨?_, rfl⟩
  unfold onResize
  rw [if_neg hw]

/-- Witness for c4_outcome_returned_then_dropped at a concrete failing
resize. -/
theorem c4_outcome_returned_then_dropped_witness :
    onResize failBuild afterInit 5 5
      = (recreateSwapChain failBuild afterInit).2
    ∧ (loopIter afterInit 0
        { frame := okFrame, resize := some (5, 5, failBuild),
          esc := false, close := false }).1
      = (loopIter afterInit 0
          { frame := okFrame, resize := none,
            esc := false, close := false }).1 := by
  have h := c4_outcome_returned_then_dropped failBuild afterInit 5 5 0
    { frame := okFrame, resize := some (5, 5, failBuild),
      esc := false, close := false } (by decide)
  exact ⟨h.1, h.2⟩
